import Mathlib

/-
  Verification development for the google-maps MCP server
  (src/mcp_google_maps/maps_tools.py and src/server.py).

  Shallow embedding conventions:
  - Python dict keys accessed with `d[k]` (KeyError on absence) become
    required structure fields; keys accessed with `d.get(k, default)`
    become `Option` fields read through `Option.getD`.
  - Python floats are modelled as rationals (ℚ); the builtin `float(...)`
    string parse is an external function and is abstracted as a parameter
    `pf : String → Option ℚ` where a definition needs it.
  - A provider (Google Maps client) call is modelled by passing the
    provider's already-decoded response as an explicit argument.
  - A raised exception becomes `Except.error`; each `try/except` block
    that re-raises `ValueError(f"<msg>: {str(e)}")` is modelled by
    `wrapErr <msg>` around the body's result.
-/

namespace MapsServer

/-- Coordinate pair, the `{"lat": .., "lng": ..}` dictionaries of the code. -/
structure Coordinate where
  lat : ℚ
  lng : ℚ
deriving DecidableEq, Repr

/-- Error values raised inside maps_tools.py; `wrapped` models a
`try/except` handler re-raising `ValueError(f"...: {str(e)}")`. -/
inductive MapsError where
  | invalidCoordinateFormat
  | addressNotFound
  | noAddressForCoordinates
  | noRouteFound
  | distanceMatrixFailed (status : String)
  | keyError (key : String)
  | indexError
  | wrapped (msg : String) (e : MapsError)
deriving DecidableEq, Repr

/-- The `str(e)` of each modelled Python exception. -/
def errMessage : MapsError → String
  | .invalidCoordinateFormat =>
      "Invalid coorindate format, please use \x27latitude, longitude\x27 format"
  | .addressNotFound => "Address not found"
  | .noAddressForCoordinates => "No address found for coordinates"
  | .noRouteFound => "No route found"
  | .distanceMatrixFailed status => "Distance matrix calculation failed: " ++ status
  | .keyError key => "\x27" ++ key ++ "\x27"
  | .indexError => "list index out of range"
  | .wrapped msg e => msg ++ errMessage e

/-- Model of an `except Exception as e: raise ValueError(f"<msg>{str(e)}")`
wrapper around a whole method body. -/
def wrapErr (msg : String) : Except MapsError α → Except MapsError α
  | .ok v => .ok v
  | .error e => .error (.wrapped msg e)

/-- Model of Python `str.split(",")`: cut at every comma, keeping empty
pieces; never returns an empty list. -/
def splitChAux (sep : Char) : List Char → List Char → List String
  | [], acc => [String.mk acc.reverse]
  | c :: rest, acc =>
      if c = sep then String.mk acc.reverse :: splitChAux sep rest []
      else splitChAux sep rest (c :: acc)

/-- Model of Python `str.split(",")` on a string. -/
def splitComma (s : String) : List String := splitChAux ',' s.toList []

/-- Model of Python `str.strip()`: drop leading and trailing whitespace. -/
def trimStr (s : String) : String :=
  String.mk (((s.toList.dropWhile (fun c => c.isWhitespace)).reverse.dropWhile
    (fun c => c.isWhitespace)).reverse)

/-- The list comprehension `[float(c.strip()) for c in ...]`: parse every
stripped token, failing as soon as one token fails to parse. -/
def floatList (pf : String → Option ℚ) : List String → Option (List ℚ)
  | [] => some []
  | c :: rest =>
      match pf (trimStr c) with
      | none => none
      | some v =>
          match floatList pf rest with
          | none => none
          | some vs => some (v :: vs)

/-- GoogleMapsTools.parse_coordinates (maps_tools.py lines 50-70):
split on commas, strip each token, parse each token as a float
(the comprehension raises as soon as one token fails to parse),
then require exactly two values.  `pf` abstracts Python `float`. -/
def parse_coordinates (pf : String → Option ℚ) (coord_string : String) :
    Except MapsError Coordinate :=
  match floatList pf (splitComma coord_string) with
  | none => .error .invalidCoordinateFormat
  | some [x, y] => .ok ⟨x, y⟩
  | some _ => .error .invalidCoordinateFormat

/-- One entry of a geocoding provider response; `geometry.location` is
accessed with mandatory indexing in the code, the other two fields with
`.get(..., "")`. -/
structure GeocodeEntry where
  location : Coordinate
  formatted_address : Option String
  place_id : Option String
deriving DecidableEq, Repr

/-- Output dictionary of GoogleMapsTools.geocode_address. -/
structure GeocodeAddressResult where
  lat : ℚ
  lng : ℚ
  formatted_address : String
  place_id : String
deriving DecidableEq, Repr

/-- GoogleMapsTools.geocode_address (maps_tools.py lines 72-102):
an empty provider result raises "Address not found", otherwise the first
entry is projected; the whole body is wrapped by the method's handler. -/
def geocode_address (resp : List GeocodeEntry) : Except MapsError GeocodeAddressResult :=
  wrapErr "Error geocoding address: " (
    match resp with
    | [] => .error .addressNotFound
    | entry :: _ =>
        .ok ⟨entry.location.lat, entry.location.lng,
             entry.formatted_address.getD "", entry.place_id.getD ""⟩)

/-- Input to get_location: `{ "value": .., "isCoordinates": .. }`, with a
missing `isCoordinates` key read as `False`. -/
structure LocationDescriptor where
  value : String
  isCoordinates : Bool
deriving DecidableEq, Repr

/-- Output dictionary of GoogleMapsTools.get_location: the coordinate
branch yields only lat/lng, the geocode branch adds the metadata keys. -/
structure LocResult where
  lat : ℚ
  lng : ℚ
  formatted_address : Option String
  place_id : Option String
deriving DecidableEq, Repr

/-- GoogleMapsTools.get_location (maps_tools.py lines 104-118). -/
def get_location (pf : String → Option ℚ) (geocodeResp : List GeocodeEntry)
    (center : LocationDescriptor) : Except MapsError LocResult :=
  if center.isCoordinates then
    match parse_coordinates pf center.value with
    | .error e => .error e
    | .ok c => .ok ⟨c.lat, c.lng, none, none⟩
  else
    match geocode_address geocodeResp with
    | .error e => .error e
    | .ok g => .ok ⟨g.lat, g.lng, some g.formatted_address, some g.place_id⟩

/-- The keyword-argument dictionary passed to `self.client.directions`
by get_directions.  The outer `Option` on `departure_time` records
whether the key is present at all; the inner one is the value (the
`else` branch of the code stores a `None` value under the key). -/
structure DirectionsParams where
  origin : String
  destination : String
  mode : String
  language : String
  departure_time : Option (Option Int)
  arrival_time : Option Int
deriving DecidableEq, Repr

/-- The provider-request construction of GoogleMapsTools.get_directions
(maps_tools.py lines 335-348): `arrival_time` is tested first, so a
truthy arrival time claims the slot; otherwise the `departure_time` key
is set (possibly to None) in both remaining branches.  Datetimes are
modelled as epoch seconds. -/
def build_directions_params (origin destination mode language : String)
    (departure_time arrival_time : Option Int) : DirectionsParams :=
  match arrival_time with
  | some a => ⟨origin, destination, mode, language, none, some a⟩
  | none => ⟨origin, destination, mode, language, some departure_time, none⟩

/-- Opening-hours sub-dictionary of a place, read through
`.get('opening_hours', {}).get(...)` in server.py. -/
structure OpeningHours where
  open_now : Option Bool
  weekday_text : Option (List String)
deriving DecidableEq, Repr

/-- Geometry sub-dictionary of a place, read through
`.get('geometry', {}).get('location')`. -/
structure PlaceGeometry where
  location : Option Coordinate
deriving DecidableEq, Repr

/-- One element of a `places_nearby` provider result: every field the code
projects is read with `.get`, so every field is optional. -/
structure Place where
  name : Option String
  place_id : Option String
  formatted_address : Option String
  geometry : Option PlaceGeometry
  rating : Option ℚ
  user_ratings_total : Option Nat
  opening_hours : Option OpeningHours
  types : Option (List String)
  price_level : Option Nat
  vicinity : Option String
deriving DecidableEq, Repr

/-- A `places_nearby` provider response; the code only reads
`result.get("results", [])`. -/
structure NearbyResponse where
  results : Option (List Place)
deriving DecidableEq, Repr

/-- The `params` dictionary handed to
GoogleMapsTools.search_nearby_places by the gateway. -/
structure NearbySearchParams where
  location : LocResult
  keyword : Option String
  radius : Nat
  openNow : Bool
  minRating : Option ℚ
deriving DecidableEq, Repr

/-- GoogleMapsTools.search_nearby_places (maps_tools.py lines 120-165):
take `result.get("results", [])` and, when `params.get("minRating")` is
truthy (present and non-zero — `0.0` is falsy in Python, so a zero
threshold skips the filter), keep the places with
`place.get("rating", 0) >= min_rating`. -/
def search_nearby_places (resp : NearbyResponse) (params : NearbySearchParams) :
    Except MapsError (List Place) :=
  wrapErr "Error searching nearby places: " (
    let places := resp.results.getD []
    match params.minRating with
    | some m =>
        if m = 0 then .ok places
        else .ok (places.filter (fun place => decide (m ≤ place.rating.getD 0)))
    | none => .ok places)

/-- One photo dictionary of a place-detail response. -/
structure Photo where
  photo_reference : Option String
  height : Option Nat
  width : Option Nat
deriving DecidableEq, Repr

/-- One review dictionary of a place-detail response. -/
structure Review where
  rating : Option ℚ
  text : Option String
  time : Option Int
  author_name : Option String
  author_url : Option String
  language : Option String
  profile_photo_url : Option String
  relative_time_description : Option String
deriving DecidableEq, Repr

/-- The `result` object of a place-detail provider response; every
projected key is read with `.get`, so every field is optional. -/
structure PlaceDetails where
  name : Option String
  rating : Option ℚ
  formatted_address : Option String
  geometry : Option PlaceGeometry
  formatted_phone_number : Option String
  international_phone_number : Option String
  website : Option String
  url : Option String
  price_level : Option Nat
  types : Option (List String)
  photos : Option (List Photo)
  reviews : Option (List Review)
  user_ratings_total : Option Nat
  opening_hours : Option OpeningHours
deriving DecidableEq, Repr

/-- The empty dictionary `{}` substituted when the provider response has
no "result" key: every `.get` on it yields its default. -/
def emptyPlaceDetails : PlaceDetails :=
  ⟨none, none, none, none, none, none, none, none, none, none, none, none, none, none⟩

/-- A `client.place` provider response; the code reads
`result.get("result", {})`. -/
structure PlaceResponse where
  result : Option PlaceDetails
deriving DecidableEq, Repr

/-- GoogleMapsTools.get_place_details (maps_tools.py lines 167-196). -/
def get_place_details_mt (resp : PlaceResponse) : Except MapsError PlaceDetails :=
  wrapErr "Error getting place details: " (.ok (resp.result.getD emptyPlaceDetails))

/-- One entry of a reverse-geocode provider response. -/
structure RevGeocodeEntry where
  formatted_address : Option String
  place_id : Option String
  address_components : Option (List String)
deriving DecidableEq, Repr

/-- Output dictionary of GoogleMapsTools.reverse_geocode. -/
structure RevGeocodeResult where
  formatted_address : String
  place_id : String
  address_components : List String
deriving DecidableEq, Repr

/-- GoogleMapsTools.reverse_geocode (maps_tools.py lines 219-250): an
empty provider result raises "No address found for coordinates",
otherwise the first entry is projected with `.get` defaults. -/
def reverse_geocode (latitude longitude : ℚ) (resp : List RevGeocodeEntry) :
    Except MapsError RevGeocodeResult :=
  wrapErr "Error reverse geocoding: " (
    match resp with
    | [] => .error .noAddressForCoordinates
    | entry :: _ =>
        .ok ⟨entry.formatted_address.getD "", entry.place_id.getD "",
             entry.address_components.getD []⟩)

/-- A `{"value": .., "text": ..}` pair; both keys are accessed with
mandatory indexing where the code uses them. -/
structure ValueText where
  value : Int
  text : String
deriving DecidableEq, Repr

/-- One element of a distance-matrix row: `status` is mandatory, while
`distance`/`duration` may be absent (indexing them then raises KeyError). -/
structure DMElement where
  status : String
  distance : Option ValueText
  duration : Option ValueText
deriving DecidableEq, Repr

/-- One row of a distance-matrix response (`row['elements']`). -/
structure DMRow where
  elements : List DMElement
deriving DecidableEq, Repr

/-- A `client.distance_matrix` provider response. -/
structure DMResponse where
  status : String
  rows : List DMRow
  origin_addresses : List String
  destination_addresses : List String
deriving DecidableEq, Repr

/-- Output dictionary of GoogleMapsTools.calculate_distance_matrix. -/
structure DMResult where
  distances : List (List (Option ValueText))
  durations : List (List (Option ValueText))
  origin_addresses : List String
  destination_addresses : List String
deriving DecidableEq, Repr

/-- The per-element step of the distance-matrix loop (maps_tools.py
lines 285-297): an OK element must carry `distance` and `duration`
(a missing key raises KeyError), a non-OK element appends None to both
rows. -/
def cellOf (element : DMElement) : Except MapsError (Option ValueText × Option ValueText) :=
  if element.status = "OK" then
    match element.distance with
    | none => .error (.keyError "distance")
    | some d =>
        match element.duration with
        | none => .error (.keyError "duration")
        | some u => .ok (some ⟨d.value, d.text⟩, some ⟨u.value, u.text⟩)
  else .ok (none, none)

/-- The inner loop over `row['elements']`, building distance_row and
duration_row in tandem. -/
def collectElements : List DMElement → Except MapsError (List (Option ValueText) × List (Option ValueText))
  | [] => .ok ([], [])
  | element :: rest =>
    match cellOf element with
    | .error e => .error e
    | .ok (cd, cu) =>
        match collectElements rest with
        | .error e => .error e
        | .ok (ds, us) => .ok (cd :: ds, cu :: us)

/-- The outer loop over `result['rows']`, building distances and
durations in tandem. -/
def collectRows : List DMRow → Except MapsError (List (List (Option ValueText)) × List (List (Option ValueText)))
  | [] => .ok ([], [])
  | row :: rest =>
    match collectElements row.elements with
    | .error e => .error e
    | .ok (drow, urow) =>
        match collectRows rest with
        | .error e => .error e
        | .ok (ds, us) => .ok (drow :: ds, urow :: us)

/-- GoogleMapsTools.calculate_distance_matrix (maps_tools.py lines
252-310): a non-OK top-level status raises, then the rows are folded
into the two matrices. -/
def calculate_distance_matrix (origins destinations : List String) (mode : String)
    (resp : DMResponse) : Except MapsError DMResult :=
  wrapErr "Error calculating distance matrix: " (
    if resp.status = "OK" then
      match collectRows resp.rows with
      | .error e => .error e
      | .ok (ds, us) => .ok ⟨ds, us, resp.origin_addresses, resp.destination_addresses⟩
    else .error (.distanceMatrixFailed resp.status))

/-- An `arrival_time`/`departure_time` dictionary of a directions leg;
the code tests `'value' not in time_info`, so the value key is optional. -/
structure TimeInfo where
  value : Option Int
  text : Option String
deriving DecidableEq, Repr

/-- One leg of a directions route: `distance`/`duration` are accessed with
mandatory indexing, the two timestamps with `.get`. -/
structure Leg where
  distance : ValueText
  duration : ValueText
  arrival_time : Option TimeInfo
  departure_time : Option TimeInfo
deriving DecidableEq, Repr

/-- One route of a directions response: `legs` is accessed with mandatory
indexing, `summary` with `.get("summary", "")`. -/
structure Route where
  summary : Option String
  legs : List Leg
deriving DecidableEq, Repr

/-- Zero-pad a number to two digits, as `strftime` does for
%m %d %H %M %S. -/
def pad2 (n : Nat) : String :=
  if n < 10 then "0" ++ toString n else toString n

/-- Zero-pad a number to four digits, as `strftime` does for %Y. -/
def pad4 (n : Nat) : String :=
  if n < 10 then "000" ++ toString n
  else if n < 100 then "00" ++ toString n
  else if n < 1000 then "0" ++ toString n
  else toString n

/-- Proleptic-Gregorian date of a day count relative to 1970-01-01
(the standard civil-from-days conversion used by calendar libraries);
models the date part of `datetime.fromtimestamp`. -/
def civilFromDays (z0 : Int) : Int × Nat × Nat :=
  let z := z0 + 719468
  let era : Int := Int.fdiv z 146097
  let doe : Int := z - era * 146097
  let yoe : Int := (doe - doe / 1460 + doe / 36524 - doe / 146096) / 365
  let y : Int := yoe + era * 400
  let doy : Int := doe - (365 * yoe + yoe / 4 - yoe / 100)
  let mp : Int := (5 * doy + 2) / 153
  let d : Int := doy - (153 * mp + 2) / 5 + 1
  let m : Int := mp + (if mp < 10 then 3 else -9)
  (y + (if m ≤ 2 then 1 else 0), m.toNat, d.toNat)

/-- Model of
`datetime.fromtimestamp(t).strftime('%Y-%m-%d %H:%M:%S')`: convert epoch
seconds to civil time at a fixed UTC offset `tz` (the host's local zone)
and render the fixed `YYYY-MM-DD HH:MM:SS` format. -/
def epochToLocal (tz t : Int) : String :=
  let lt := t + tz
  let days := Int.fdiv lt 86400
  let sod := (lt - days * 86400).toNat
  let (y, m, d) := civilFromDays days
  let yStr := if y < 0 then "-" ++ pad4 (-y).toNat else pad4 y.toNat
  yStr ++ "-" ++ pad2 m ++ "-" ++ pad2 d ++ " " ++
    pad2 (sod / 3600) ++ ":" ++ pad2 (sod % 3600 / 60) ++ ":" ++ pad2 (sod % 60)

/-- The nested format_time helper of get_directions (maps_tools.py lines
358-364): a missing or value-less time dictionary yields "", otherwise
the epoch value is formatted. -/
def format_time (tz : Int) (time_info : Option TimeInfo) : String :=
  match time_info with
  | none => ""
  | some ti =>
      match ti.value with
      | none => ""
      | some v => epochToLocal tz v

/-- Output dictionary of GoogleMapsTools.get_directions. -/
structure DirectionsResult where
  routes : List Route
  summary : String
  total_distance : ValueText
  total_duration : ValueText
  arrival_time : String
  departure_time : String
deriving DecidableEq, Repr

/-- GoogleMapsTools.get_directions, response-processing part
(maps_tools.py lines 350-379): an empty provider result raises "No route
found"; `route = result[0]` and `leg = route["legs"][0]` (an empty legs
list raises IndexError); the summary, totals and timestamps all come
from that first route and first leg.  The request parameters the same
method builds are modelled by `build_directions_params`. -/
def get_directions (origin destination mode : String)
    (departure_time arrival_time : Option Int) (tz : Int)
    (resp : List Route) : Except MapsError DirectionsResult :=
  wrapErr "Error getting directions: " (
    match resp with
    | [] => .error .noRouteFound
    | route :: _ =>
        match route.legs with
        | [] => .error .indexError
        | leg :: _ =>
            .ok ⟨resp, route.summary.getD "",
                 ⟨leg.distance.value, leg.distance.text⟩,
                 ⟨leg.duration.value, leg.duration.text⟩,
                 format_time tz leg.arrival_time,
                 format_time tz leg.departure_time⟩)

/-- One requested elevation point (`{'latitude': .., 'longitude': ..}`). -/
structure ElevPoint where
  latitude : ℚ
  longitude : ℚ
deriving DecidableEq, Repr

/-- One item of a `client.elevation` provider response. -/
structure ElevItem where
  elevation : ℚ
  location : Coordinate
deriving DecidableEq, Repr

/-- One output sample of GoogleMapsTools.get_elevation. -/
structure ElevSample where
  elevation : ℚ
  location : Coordinate
deriving DecidableEq, Repr

/-- The request list sent to `client.elevation`
(maps_tools.py line 397). -/
def elevation_request (locations : List ElevPoint) : List (ℚ × ℚ) :=
  locations.map (fun loc => (loc.latitude, loc.longitude))

/-- GoogleMapsTools.get_elevation (maps_tools.py lines 383-409): one
output sample per provider response item, in response order. -/
def get_elevation (locations : List ElevPoint) (resp : List ElevItem) :
    Except MapsError (List ElevSample) :=
  wrapErr "Error getting elevation data: " (
    .ok (resp.map (fun item => ⟨item.elevation, ⟨item.location.lat, item.location.lng⟩⟩)))

/-- The `except Exception as e: raise RuntimeError(f"<msg>{str(e)}")`
boundary of every tool in server.py: a success passes through, any
internal failure is collapsed to a single message string.  The output
error type is `String`: the caller never sees a `MapsError`. -/
def gateway_call (msg : String) : Except MapsError α → Except String α
  | .ok v => .ok v
  | .error e => .error (msg ++ errMessage e)

/-- A formatted place of search_nearby (server.py lines 75-90). -/
structure FormattedPlace where
  name : Option String
  place_id : Option String
  address : Option String
  location : Option Coordinate
  rating : Option ℚ
  total_ratings : Option Nat
  open_now : Option Bool
  types : List String
  price_level : Option Nat
  vicinity : Option String
deriving DecidableEq, Repr

/-- The per-place reshaping of search_nearby (server.py lines 76-90). -/
def format_place (place : Place) : FormattedPlace :=
  ⟨place.name, place.place_id, place.formatted_address,
   (place.geometry.getD ⟨none⟩).location, place.rating, place.user_ratings_total,
   (place.opening_hours.getD ⟨none, none⟩).open_now, place.types.getD [],
   place.price_level, place.vicinity⟩

/-- Output dictionary of the search_nearby tool. -/
structure SearchNearbyResult where
  location : LocResult
  places : List FormattedPlace
  total_results : Nat
deriving DecidableEq, Repr

/-- Body of the search_nearby tool (server.py lines 58-96): resolve the
center, search, reshape. -/
def search_nearby_body (pf : String → Option ℚ) (geocodeResp : List GeocodeEntry)
    (nearbyResp : NearbyResponse) (center : LocationDescriptor)
    (keyword : Option String) (radius : Nat) (openNow : Bool)
    (minRating : Option ℚ) : Except MapsError SearchNearbyResult :=
  match get_location pf geocodeResp center with
  | .error e => .error e
  | .ok location =>
      match search_nearby_places nearbyResp ⟨location, keyword, radius, openNow, minRating⟩ with
      | .error e => .error e
      | .ok places =>
          let formatted_places := places.map format_place
          .ok ⟨location, formatted_places, formatted_places.length⟩

/-- The search_nearby tool (server.py lines 33-99).  `adapter` is the
global `maps_tools` handle: `none` models the uninitialized state. -/
def search_nearby_tool (adapter : Option Unit) (pf : String → Option ℚ)
    (geocodeResp : List GeocodeEntry) (nearbyResp : NearbyResponse)
    (center : LocationDescriptor) (keyword : Option String) (radius : Nat)
    (openNow : Bool) (minRating : Option ℚ) : Except String SearchNearbyResult :=
  match adapter with
  | none => .error "Google Map Tools not initialized"
  | some _ =>
      gateway_call "Search failed: "
        (search_nearby_body pf geocodeResp nearbyResp center keyword radius openNow minRating)

/-- A formatted photo of get_place_details (server.py lines 136-143). -/
structure FormattedPhoto where
  photo_reference : Option String
  height : Option Nat
  width : Option Nat
deriving DecidableEq, Repr

/-- A formatted review of get_place_details (server.py lines 144-156). -/
structure FormattedReview where
  rating : Option ℚ
  text : Option String
  time : Option Int
  author_name : Option String
  author_url : Option String
  language : Option String
  profile_photo_url : Option String
  relative_time_description : Option String
deriving DecidableEq, Repr

/-- Output dictionary of the get_place_details tool (server.py lines
121-157). -/
structure FormattedDetails where
  name : Option String
  place_id : String
  address : Option String
  location : Option Coordinate
  rating : Option ℚ
  total_ratings : Option Nat
  open_now : Option Bool
  opening_hours : List String
  phone : Option String
  international_phone : Option String
  website : Option String
  url : Option String
  price_level : Option Nat
  types : List String
  photos : List FormattedPhoto
  reviews : List FormattedReview
deriving DecidableEq, Repr

/-- The reshaping of the get_place_details tool (server.py lines
121-157); `place_id` echoes the request argument, everything else is
projected from the detail object with `.get` defaults. -/
def format_place_details (placeId : String) (details : PlaceDetails) : FormattedDetails :=
  ⟨details.name, placeId, details.formatted_address,
   (details.geometry.getD ⟨none⟩).location, details.rating,
   details.user_ratings_total,
   (details.opening_hours.getD ⟨none, none⟩).open_now,
   ((details.opening_hours.getD ⟨none, none⟩).weekday_text).getD [],
   details.formatted_phone_number, details.international_phone_number,
   details.website, details.url, details.price_level, details.types.getD [],
   (details.photos.getD []).map (fun p => ⟨p.photo_reference, p.height, p.width⟩),
   (details.reviews.getD []).map (fun r =>
     ⟨r.rating, r.text, r.time, r.author_name, r.author_url, r.language,
      r.profile_photo_url, r.relative_time_description⟩)⟩

/-- The get_place_details tool (server.py lines 102-162). -/
def get_place_details_tool (adapter : Option Unit) (placeId : String)
    (resp : PlaceResponse) : Except String FormattedDetails :=
  match adapter with
  | none => .error "Google Maps tools not initialized"
  | some _ =>
      gateway_call "Failed to get place details: "
        (match get_place_details_mt resp with
         | .error e => .error e
         | .ok details => .ok (format_place_details placeId details))

/-- Output dictionary of GoogleMapsTools.geocode (maps_tools.py lines
198-217). -/
structure GeocodePublicResult where
  location : Coordinate
  formatted_address : String
  place_id : String
deriving DecidableEq, Repr

/-- GoogleMapsTools.geocode (maps_tools.py lines 198-217): reshape
geocode_address, wrapping any failure once more. -/
def geocode_public (resp : List GeocodeEntry) : Except MapsError GeocodePublicResult :=
  wrapErr "Error geocoding: " (
    match geocode_address resp with
    | .error e => .error e
    | .ok r => .ok ⟨⟨r.lat, r.lng⟩, r.formatted_address, r.place_id⟩)

/-- The maps_geocode tool (server.py lines 165-183). -/
def maps_geocode_tool (adapter : Option Unit) (address : String)
    (resp : List GeocodeEntry) : Except String GeocodePublicResult :=
  match adapter with
  | none => .error "Google Maps tools not initialized"
  | some _ => gateway_call "Geocoding failed: " (geocode_public resp)

/-- The maps_reverse_geocode tool (server.py lines 186-205). -/
def maps_reverse_geocode_tool (adapter : Option Unit) (latitude longitude : ℚ)
    (resp : List RevGeocodeEntry) : Except String RevGeocodeResult :=
  match adapter with
  | none => .error "Google Maps tools not initialized"
  | some _ =>
      gateway_call "Reverse geocoding failed: " (reverse_geocode latitude longitude resp)

/-- The maps_distance_matrix tool (server.py lines 208-232). -/
def maps_distance_matrix_tool (adapter : Option Unit)
    (origins destinations : List String) (mode : String)
    (resp : DMResponse) : Except String DMResult :=
  match adapter with
  | none => .error "Google Maps tools not initialized"
  | some _ =>
      gateway_call "Distance matrix calculation failed: "
        (calculate_distance_matrix origins destinations mode resp)

/-- The maps_directions tool (server.py lines 235-280); the ISO-string
inputs are modelled after parsing, as optional epoch seconds. -/
def maps_directions_tool (adapter : Option Unit) (origin destination mode : String)
    (departure_time arrival_time : Option Int) (tz : Int)
    (resp : List Route) : Except String DirectionsResult :=
  match adapter with
  | none => .error "Google Maps tools not initialized"
  | some _ =>
      gateway_call "Failed to get directions: "
        (get_directions origin destination mode departure_time arrival_time tz resp)

/-- The maps_elevation tool (server.py lines 283-301). -/
def maps_elevation_tool (adapter : Option Unit) (locations : List ElevPoint)
    (resp : List ElevItem) : Except String (List ElevSample) :=
  match adapter with
  | none => .error "Google Maps tools not initialized"
  | some _ =>
      gateway_call "Failed to get elevation data: " (get_elevation locations resp)

/-- Digits-only parse of a nonempty character list. -/
def parseNatDigits : List Char → Option Nat
  | [] => none
  | cs => cs.foldlM (fun a c => if c.isDigit then some (a * 10 + (c.toNat - 48)) else none) 0

/-- Unsigned decimal parse: digits, optionally followed by a dot and
more digits. -/
def parseUnsignedDec (s : String) : Option ℚ :=
  match splitChAux '.' s.toList [] with
  | [i] => (parseNatDigits i.toList).map (fun n => (n : ℚ))
  | [i, f] =>
      match parseNatDigits i.toList, parseNatDigits f.toList with
      | some ip, some fp => some ((ip : ℚ) + (fp : ℚ) / ((10 : ℚ) ^ f.length))
      | _, _ => none
  | _ => none

/-- A concrete stand-in for the Python `float` string parse, covering
plain signed decimal literals; used to instantiate `pf` on concrete
inputs. -/
def parseDec (s : String) : Option ℚ :=
  match s.toList with
  | '-' :: rest => (parseUnsignedDec (String.mk rest)).map (fun q => -q)
  | _ => parseUnsignedDec s

/- ===================== Helper lemmas ===================== -/

lemma wrapErr_ok {α : Type} (msg : String) (v : α) :
    wrapErr msg (.ok v) = .ok v := rfl

lemma wrapErr_error {α : Type} (msg : String) (e : MapsError) :
    (wrapErr msg (.error e) : Except MapsError α) = .error (.wrapped msg e) := rfl

lemma forallTwo_exists_left {α β : Type} {R : α → β → Prop} :
    ∀ {l₁ : List α} {l₂ : List β}, List.Forall₂ R l₁ l₂ → ∀ b ∈ l₂, ∃ a ∈ l₁, R a b := by
  intro l₁ l₂ h
  induction h with
  | nil => intro b hb; simp at hb
  | @cons a b l₁ l₂ hr _ ih =>
      intro x hx
      rcases List.mem_cons.mp hx with hx | hx
      · exact ⟨a, List.mem_cons_self a l₁, hx ▸ hr⟩
      · obtain ⟨a', ha', hra'⟩ := ih x hx
        exact ⟨a', List.mem_cons_of_mem a ha', hra'⟩

/- ===================== C1 ===================== -/

/-- C1 (counterexample): with both a departure time (epoch 100) and an
arrival time (epoch 200) supplied, the provider request built by
get_directions contains no departure_time key and does contain the
arrival time — refuting the claim that the departure time is sent and
the arrival time ignored. -/
theorem C1_counterexample :
    (build_directions_params "Taipei" "Tainan" "driving" "zh-TW"
      (some 100) (some 200)).departure_time = none
    ∧ (build_directions_params "Taipei" "Tainan" "driving" "zh-TW"
      (some 100) (some 200)).arrival_time = some 200 := by
  exact ⟨rfl, rfl⟩

/-- C1 (amended): for the directions operation, when both a departure
time and an arrival time are supplied in a single call, the parameters
of the one provider request contain the arrival time and the departure
time is ignored (arrival time wins). -/
theorem C1_arrival_time_wins (origin destination mode language : String)
    (dep a : Int) :
    (build_directions_params origin destination mode language
      (some dep) (some a)).arrival_time = some a
    ∧ (build_directions_params origin destination mode language
      (some dep) (some a)).departure_time = none := by
  exact ⟨rfl, rfl⟩

/- ===================== C2 ===================== -/

/-- C2: resolving a coordinate descriptor (isCoordinates true) whose
value splits on commas into tokens that all parse numerically and number
exactly two returns exactly those two values as lat/lng, with no range
check (x and y are arbitrary); if the token list fails to parse or has a
length other than two, resolution fails with the invalid-coordinate-
format error. -/
theorem C2_coordinate_resolution (pf : String → Option ℚ) (s : String)
    (geocodeResp : List GeocodeEntry) :
    (∀ x y : ℚ, floatList pf (splitComma s) = some [x, y] →
        get_location pf geocodeResp ⟨s, true⟩ = .ok ⟨x, y, none, none⟩)
    ∧ (floatList pf (splitComma s) = none →
        get_location pf geocodeResp ⟨s, true⟩ = .error .invalidCoordinateFormat)
    ∧ (∀ l : List ℚ, floatList pf (splitComma s) = some l →
        l.length ≠ 2 →
        get_location pf geocodeResp ⟨s, true⟩ = .error .invalidCoordinateFormat) := by
  refine ⟨?_, ?_, ?_⟩
  · intro x y h
    simp [get_location, parse_coordinates, h]
  · intro h
    simp [get_location, parse_coordinates, h]
  · intro l h hlen
    rcases l with _ | ⟨x, _ | ⟨y, _ | ⟨z, rest⟩⟩⟩
    · simp [get_location, parse_coordinates, h]
    · simp [get_location, parse_coordinates, h]
    · simp at hlen
    · simp [get_location, parse_coordinates, h]

/-- C2 witness: a concrete in-range-free parse succeeds with the exact
out-of-range values 200/300, and two concrete malformed strings fail. -/
theorem C2_witness :
    get_location parseDec [] ⟨"200, 300", true⟩ = .ok ⟨200, 300, none, none⟩
    ∧ get_location parseDec [] ⟨"abc", true⟩ = .error .invalidCoordinateFormat
    ∧ get_location parseDec [] ⟨"1, 2, 3", true⟩ = .error .invalidCoordinateFormat := by
  refine ⟨?_, ?_, ?_⟩
  · exact (C2_coordinate_resolution parseDec "200, 300" []).1 200 300 (by decide)
  · exact (C2_coordinate_resolution parseDec "abc" []).2.1 (by decide)
  · exact (C2_coordinate_resolution parseDec "1, 2, 3" []).2.2 [1, 2, 3] (by decide) (by decide)

/- ===================== C3 ===================== -/

/-- C3: for every provider nearby-search response whose ratings lie in
the provider's nonnegative rating domain and every supplied minRating,
the returned list contains no place rated below minRating, a place
without a rating (treated as 0) is excluded whenever minRating is
positive, and an unsupplied minRating filters nothing. -/
theorem C3_min_rating_filter (resp : NearbyResponse) (params : NearbySearchParams)
    (hnn : ∀ p ∈ resp.results.getD [], 0 ≤ p.rating.getD 0) :
    (∀ (m : ℚ) (places : List Place), params.minRating = some m →
        search_nearby_places resp params = .ok places →
        (∀ p ∈ places, ¬ p.rating.getD 0 < m) ∧
        (0 < m → ∀ p ∈ places, p.rating ≠ none)) ∧
    (params.minRating = none →
        search_nearby_places resp params = .ok (resp.results.getD [])) := by
  constructor
  · intro m places hm hok
    simp only [search_nearby_places, hm] at hok
    by_cases h0 : m = 0
    · rw [if_pos h0, wrapErr_ok] at hok
      have hpl : places = resp.results.getD [] := by
        cases hok
        rfl
      subst hpl
      subst h0
      refine ⟨fun p hp => not_lt.mpr (hnn p hp), fun hlt => absurd hlt (lt_irrefl 0)⟩
    · rw [if_neg h0, wrapErr_ok] at hok
      have hpl : places = (resp.results.getD []).filter
          (fun place => decide (m ≤ place.rating.getD 0)) := by
        cases hok
        rfl
      subst hpl
      constructor
      · intro p hp
        have := (List.mem_filter.mp hp).2
        exact not_lt.mpr (of_decide_eq_true this)
      · intro hmp p hp hnone
        have := of_decide_eq_true (List.mem_filter.mp hp).2
        rw [hnone] at this
        simp only [Option.getD_none] at this
        exact absurd (lt_of_lt_of_le hmp this) (lt_irrefl 0)
  · intro hm
    rw [search_nearby_places, hm]
    rfl

/-- C3 witness: for a concrete response with ratings 5, 4 and a missing
rating, a supplied minRating of 5 yields a list with no place rated
below 5 and no rating-less place. -/
theorem C3_witness :
    (∀ p ∈ [(⟨some "a", none, none, none, some 5, none, none, none, none, none⟩ : Place)],
        ¬ p.rating.getD 0 < (5 : ℚ)) ∧
    ((0 : ℚ) < 5 →
      ∀ p ∈ [(⟨some "a", none, none, none, some 5, none, none, none, none, none⟩ : Place)],
        p.rating ≠ none) := by
  exact (C3_min_rating_filter
    ⟨some [⟨some "a", none, none, none, some 5, none, none, none, none, none⟩,
           ⟨some "b", none, none, none, some 4, none, none, none, none, none⟩,
           ⟨some "c", none, none, none, none, none, none, none, none, none⟩]⟩
    ⟨⟨0, 0, none, none⟩, none, 1000, false, some 5⟩
    (by decide)).1 5 _ rfl rfl

/- ===================== C4 ===================== -/

/-- C4: an empty provider result set makes geocode_address and
reverse_geocode fail with their typed not-found errors (never an empty
success), while an empty nearby-search result set (whether the results
key holds an empty list or is absent) is returned as an empty-list
success for every parameter choice. -/
theorem C4_empty_result_sets :
    geocode_address [] = .error (.wrapped "Error geocoding address: " .addressNotFound)
    ∧ (∀ latitude longitude : ℚ, reverse_geocode latitude longitude [] =
        .error (.wrapped "Error reverse geocoding: " .noAddressForCoordinates))
    ∧ (∀ params : NearbySearchParams,
        search_nearby_places ⟨some []⟩ params = .ok []
        ∧ search_nearby_places ⟨none⟩ params = .ok []) := by
  refine ⟨rfl, fun _ _ => rfl, fun params => ⟨?_, ?_⟩⟩ <;>
  · rcases params with ⟨loc, kw, rad, op, _ | m⟩
    · rfl
    · by_cases hm : m = 0 <;> simp [search_nearby_places, wrapErr, hm]

/- ===================== C5 ===================== -/

/-- C5: for every tool, every internal failure (resolver, adapter or
reshaping error `e` of the tool's body) is re-emitted by the gateway as
a single failure whose payload is only the human-readable message string
of the tool's fixed prefix followed by the failure's message; the
output's error type is String, so the caller never observes the internal
MapsError taxonomy. -/
theorem C5_uniform_tool_errors :
    (∀ pf gresp nresp center kw radius openNow minRating e,
        search_nearby_body pf gresp nresp center kw radius openNow minRating = .error e →
        search_nearby_tool (some ()) pf gresp nresp center kw radius openNow minRating =
          .error ("Search failed: " ++ errMessage e))
    ∧ (∀ placeId resp e, get_place_details_mt resp = .error e →
        get_place_details_tool (some ()) placeId resp =
          .error ("Failed to get place details: " ++ errMessage e))
    ∧ (∀ address resp e, geocode_public resp = .error e →
        maps_geocode_tool (some ()) address resp =
          .error ("Geocoding failed: " ++ errMessage e))
    ∧ (∀ latitude longitude resp e, reverse_geocode latitude longitude resp = .error e →
        maps_reverse_geocode_tool (some ()) latitude longitude resp =
          .error ("Reverse geocoding failed: " ++ errMessage e))
    ∧ (∀ origins destinations mode resp e,
        calculate_distance_matrix origins destinations mode resp = .error e →
        maps_distance_matrix_tool (some ()) origins destinations mode resp =
          .error ("Distance matrix calculation failed: " ++ errMessage e))
    ∧ (∀ origin destination mode dep arr tz resp e,
        get_directions origin destination mode dep arr tz resp = .error e →
        maps_directions_tool (some ()) origin destination mode dep arr tz resp =
          .error ("Failed to get directions: " ++ errMessage e))
    ∧ (∀ locations resp e, get_elevation locations resp = .error e →
        maps_elevation_tool (some ()) locations resp =
          .error ("Failed to get elevation data: " ++ errMessage e)) := by
  refine ⟨?_, ?_, ?_, ?_, ?_, ?_, ?_⟩
  · intro pf gresp nresp center kw radius openNow minRating e h
    simp [search_nearby_tool, gateway_call, h]
  · intro placeId resp e h
    simp [get_place_details_tool, gateway_call, h]
  · intro address resp e h
    simp [maps_geocode_tool, gateway_call, h]
  · intro latitude longitude resp e h
    simp [maps_reverse_geocode_tool, gateway_call, h]
  · intro origins destinations mode resp e h
    simp [maps_distance_matrix_tool, gateway_call, h]
  · intro origin destination mode dep arr tz resp e h
    simp [maps_directions_tool, gateway_call, h]
  · intro locations resp e h
    simp [maps_elevation_tool, gateway_call, h]

/-- C5 witness: two concrete internal failures surface as pure message
strings — an unresolvable center in search_nearby and an empty route
list in directions. -/
theorem C5_witness :
    search_nearby_tool (some ()) parseDec [] ⟨none⟩ ⟨"abc", true⟩ none 1000 false none =
      .error ("Search failed: " ++
        "Invalid coorindate format, please use \x27latitude, longitude\x27 format")
    ∧ maps_directions_tool (some ()) "A" "B" "driving" none none 0 [] =
      .error ("Failed to get directions: " ++
        "Error getting directions: No route found") := by
  constructor
  · exact C5_uniform_tool_errors.1 parseDec [] ⟨none⟩ ⟨"abc", true⟩ none 1000 false none
      .invalidCoordinateFormat rfl
  · exact C5_uniform_tool_errors.2.2.2.2.2.1 "A" "B" "driving" none none 0 []
      (.wrapped "Error getting directions: " .noRouteFound) rfl

/- ===================== C6 ===================== -/

lemma cellOf_ok_iff (element : DMElement) (cd cu : Option ValueText)
    (h : cellOf element = .ok (cd, cu)) :
    (cd.isSome = true ↔ element.status = "OK")
    ∧ (cu.isSome = true ↔ element.status = "OK") := by
  unfold cellOf at h
  by_cases hst : element.status = "OK"
  · rw [if_pos hst] at h
    rcases hd : element.distance with _ | d
    · rw [hd] at h
      exact absurd h (by simp)
    · rw [hd] at h
      rcases hu : element.duration with _ | u
      · rw [hu] at h
        exact absurd h (by simp)
      · rw [hu] at h
        simp only [Except.ok.injEq, Prod.mk.injEq] at h
        rw [← h.1, ← h.2]
        simp [hst]
  · rw [if_neg hst] at h
    simp only [Except.ok.injEq, Prod.mk.injEq] at h
    rw [← h.1, ← h.2]
    simp [hst]

lemma collectElements_ok (es : List DMElement) :
    ∀ ds us, collectElements es = .ok (ds, us) →
      ds.length = es.length ∧ us.length = es.length
      ∧ List.Forall₂ (fun (e : DMElement) (c : Option ValueText) =>
          (c.isSome = true ↔ e.status = "OK")) es ds
      ∧ List.Forall₂ (fun (e : DMElement) (c : Option ValueText) =>
          (c.isSome = true ↔ e.status = "OK")) es us := by
  induction es with
  | nil =>
      intro ds us h
      simp only [collectElements, Except.ok.injEq, Prod.mk.injEq] at h
      rw [← h.1, ← h.2]
      exact ⟨rfl, rfl, List.Forall₂.nil, List.Forall₂.nil⟩
  | cons e rest ih =>
      intro ds us h
      rw [collectElements] at h
      rcases hc : cellOf e with err | ⟨cd, cu⟩
      · rw [hc] at h
        exact absurd h (by simp)
      · rw [hc] at h
        rcases hr : collectElements rest with err | ⟨ds', us'⟩
        · rw [hr] at h
          exact absurd h (by simp)
        · rw [hr] at h
          simp only [Except.ok.injEq, Prod.mk.injEq] at h
          obtain ⟨h1, h2⟩ := h
          subst h1
          subst h2
          obtain ⟨l1, l2, f1, f2⟩ := ih ds' us' hr
          obtain ⟨c1, c2⟩ := cellOf_ok_iff e cd cu hc
          exact ⟨by simp [l1], by simp [l2],
                 List.Forall₂.cons c1 f1, List.Forall₂.cons c2 f2⟩

lemma collectRows_ok (rows : List DMRow) :
    ∀ ds us, collectRows rows = .ok (ds, us) →
      ds.length = rows.length ∧ us.length = rows.length
      ∧ List.Forall₂ (fun (row : DMRow) (drow : List (Option ValueText)) =>
          drow.length = row.elements.length
          ∧ List.Forall₂ (fun (e : DMElement) (c : Option ValueText) =>
              (c.isSome = true ↔ e.status = "OK")) row.elements drow) rows ds
      ∧ List.Forall₂ (fun (row : DMRow) (urow : List (Option ValueText)) =>
          urow.length = row.elements.length
          ∧ List.Forall₂ (fun (e : DMElement) (c : Option ValueText) =>
              (c.isSome = true ↔ e.status = "OK")) row.elements urow) rows us := by
  induction rows with
  | nil =>
      intro ds us h
      simp only [collectRows, Except.ok.injEq, Prod.mk.injEq] at h
      rw [← h.1, ← h.2]
      exact ⟨rfl, rfl, List.Forall₂.nil, List.Forall₂.nil⟩
  | cons row rest ih =>
      intro ds us h
      rw [collectRows] at h
      rcases hc : collectElements row.elements with err | ⟨drow, urow⟩
      · rw [hc] at h
        exact absurd h (by simp)
      · rw [hc] at h
        rcases hr : collectRows rest with err | ⟨ds', us'⟩
        · rw [hr] at h
          exact absurd h (by simp)
        · rw [hr] at h
          simp only [Except.ok.injEq, Prod.mk.injEq] at h
          obtain ⟨h1, h2⟩ := h
          subst h1
          subst h2
          obtain ⟨el1, el2, ef1, ef2⟩ := collectElements_ok row.elements drow urow hc
          obtain ⟨l1, l2, f1, f2⟩ := ih ds' us' hr
          exact ⟨by simp [l1], by simp [l2],
                 List.Forall₂.cons ⟨el1, ef1⟩ f1, List.Forall₂.cons ⟨el2, ef2⟩ f2⟩

/-- C6: a successful distance-matrix call over a provider response whose
row/element counts honour the provider contract (one row per origin, one
element per destination) yields distance and duration matrices of
dimension len(origins) × len(destinations); row by row, a cell holds a
value/text pair exactly when the corresponding provider element status
is OK (failed cells are None); and any response with a non-OK top-level
status fails the whole call. -/
theorem C6_distance_matrix_shape (origins destinations : List String)
    (mode : String) (resp : DMResponse) (r : DMResult)
    (hrows : resp.rows.length = origins.length)
    (helems : ∀ row ∈ resp.rows, row.elements.length = destinations.length)
    (hok : calculate_distance_matrix origins destinations mode resp = .ok r) :
    r.distances.length = origins.length
    ∧ r.durations.length = origins.length
    ∧ (∀ drow ∈ r.distances, drow.length = destinations.length)
    ∧ (∀ urow ∈ r.durations, urow.length = destinations.length)
    ∧ List.Forall₂ (fun (row : DMRow) (drow : List (Option ValueText)) =>
        List.Forall₂ (fun (e : DMElement) (c : Option ValueText) =>
          (c.isSome = true ↔ e.status = "OK")) row.elements drow) resp.rows r.distances
    ∧ List.Forall₂ (fun (row : DMRow) (urow : List (Option ValueText)) =>
        List.Forall₂ (fun (e : DMElement) (c : Option ValueText) =>
          (c.isSome = true ↔ e.status = "OK")) row.elements urow) resp.rows r.durations
    ∧ (∀ resp2 : DMResponse, resp2.status ≠ "OK" →
        calculate_distance_matrix origins destinations mode resp2 =
          .error (.wrapped "Error calculating distance matrix: "
            (.distanceMatrixFailed resp2.status))) := by
  have hlast : ∀ resp2 : DMResponse, resp2.status ≠ "OK" →
      calculate_distance_matrix origins destinations mode resp2 =
        .error (.wrapped "Error calculating distance matrix: "
          (.distanceMatrixFailed resp2.status)) := by
    intro resp2 h2
    rw [calculate_distance_matrix, if_neg h2]
    rfl
  rw [calculate_distance_matrix] at hok
  by_cases hst : resp.status = "OK"
  · rw [if_pos hst] at hok
    rcases hcr : collectRows resp.rows with err | ⟨ds, us⟩
    · rw [hcr] at hok
      exact absurd hok (by simp [wrapErr])
    · rw [hcr] at hok
      rw [wrapErr_ok] at hok
      have hr : r = ⟨ds, us, resp.origin_addresses, resp.destination_addresses⟩ := by
        cases hok
        rfl
      subst hr
      obtain ⟨l1, l2, f1, f2⟩ := collectRows_ok resp.rows ds us hcr
      refine ⟨l1.trans hrows, l2.trans hrows, ?_, ?_, ?_, ?_, hlast⟩
      · intro drow hdrow
        obtain ⟨row, hrow, hlen, _⟩ := forallTwo_exists_left f1 drow hdrow
        exact hlen.trans (helems row hrow)
      · intro urow hurow
        obtain ⟨row, hrow, hlen, _⟩ := forallTwo_exists_left f2 urow hurow
        exact hlen.trans (helems row hrow)
      · exact f1.imp (fun a b hab => hab.2)
      · exact f2.imp (fun a b hab => hab.2)
  · rw [if_neg hst] at hok
    exact absurd hok (by simp [wrapErr])

/-- C6 witness: a concrete 2-origin 2-destination call whose provider
response marks one cell NOT_FOUND keeps both matrices at dimension 2x2,
with exactly that cell None in both, and any non-OK top-level status
fails the whole call. -/
theorem C6_witness :
    ([[some (⟨3, "3 m"⟩ : ValueText), none],
      [some ⟨5, "5 m"⟩, some ⟨7, "7 m"⟩]] : List (List (Option ValueText))).length = 2
    ∧ ([[some (⟨4, "4 s"⟩ : ValueText), none],
      [some ⟨6, "6 s"⟩, some ⟨8, "8 s"⟩]] : List (List (Option ValueText))).length = 2
    ∧ (∀ drow ∈ ([[some (⟨3, "3 m"⟩ : ValueText), none],
        [some ⟨5, "5 m"⟩, some ⟨7, "7 m"⟩]] : List (List (Option ValueText))),
        drow.length = 2)
    ∧ (∀ urow ∈ ([[some (⟨4, "4 s"⟩ : ValueText), none],
        [some ⟨6, "6 s"⟩, some ⟨8, "8 s"⟩]] : List (List (Option ValueText))),
        urow.length = 2)
    ∧ List.Forall₂ (fun (row : DMRow) (drow : List (Option ValueText)) =>
        List.Forall₂ (fun (e : DMElement) (c : Option ValueText) =>
          (c.isSome = true ↔ e.status = "OK")) row.elements drow)
        [⟨[⟨"OK", some ⟨3, "3 m"⟩, some ⟨4, "4 s"⟩⟩, ⟨"NOT_FOUND", none, none⟩]⟩,
         ⟨[⟨"OK", some ⟨5, "5 m"⟩, some ⟨6, "6 s"⟩⟩, ⟨"OK", some ⟨7, "7 m"⟩, some ⟨8, "8 s"⟩⟩]⟩]
        [[some ⟨3, "3 m"⟩, none], [some ⟨5, "5 m"⟩, some ⟨7, "7 m"⟩]]
    ∧ List.Forall₂ (fun (row : DMRow) (urow : List (Option ValueText)) =>
        List.Forall₂ (fun (e : DMElement) (c : Option ValueText) =>
          (c.isSome = true ↔ e.status = "OK")) row.elements urow)
        [⟨[⟨"OK", some ⟨3, "3 m"⟩, some ⟨4, "4 s"⟩⟩, ⟨"NOT_FOUND", none, none⟩]⟩,
         ⟨[⟨"OK", some ⟨5, "5 m"⟩, some ⟨6, "6 s"⟩⟩, ⟨"OK", some ⟨7, "7 m"⟩, some ⟨8, "8 s"⟩⟩]⟩]
        [[some ⟨4, "4 s"⟩, none], [some ⟨6, "6 s"⟩, some ⟨8, "8 s"⟩]]
    ∧ (∀ resp2 : DMResponse, resp2.status ≠ "OK" →
        calculate_distance_matrix ["A", "B"] ["C", "D"] "driving" resp2 =
          .error (.wrapped "Error calculating distance matrix: "
            (.distanceMatrixFailed resp2.status))) := by
  exact C6_distance_matrix_shape ["A", "B"] ["C", "D"] "driving"
    ⟨"OK",
     [⟨[⟨"OK", some ⟨3, "3 m"⟩, some ⟨4, "4 s"⟩⟩, ⟨"NOT_FOUND", none, none⟩]⟩,
      ⟨[⟨"OK", some ⟨5, "5 m"⟩, some ⟨6, "6 s"⟩⟩, ⟨"OK", some ⟨7, "7 m"⟩, some ⟨8, "8 s"⟩⟩]⟩],
     ["A addr", "B addr"], ["C addr", "D addr"]⟩
    ⟨[[some ⟨3, "3 m"⟩, none], [some ⟨5, "5 m"⟩, some ⟨7, "7 m"⟩]],
     [[some ⟨4, "4 s"⟩, none], [some ⟨6, "6 s"⟩, some ⟨8, "8 s"⟩]],
     ["A addr", "B addr"], ["C addr", "D addr"]⟩
    rfl (by decide) rfl

/- ===================== C7 ===================== -/

/-- C7: a directions call reshapes the provider response using only the
first route and its first leg — the summary, total distance and total
duration are those of that route and leg for every choice of extra
routes and extra legs; timestamps are rendered by format_time, which
yields the fixed epoch-to-local conversion of epochToLocal on a present
value and the empty string (never an error) when the timestamp field or
its value is absent; concretely, epoch 1700000000 at UTC renders as
"2023-11-14 22:13:20". -/
theorem C7_first_route_first_leg (origin destination mode : String)
    (dep arr : Option Int) (tz : Int) (route : Route) (rest : List Route)
    (leg : Leg) (legs' : List Leg) (hlegs : route.legs = leg :: legs') :
    get_directions origin destination mode dep arr tz (route :: rest) =
      .ok ⟨route :: rest, route.summary.getD "",
           ⟨leg.distance.value, leg.distance.text⟩,
           ⟨leg.duration.value, leg.duration.text⟩,
           format_time tz leg.arrival_time, format_time tz leg.departure_time⟩
    ∧ format_time tz none = ""
    ∧ (∀ txt, format_time tz (some ⟨none, txt⟩) = "")
    ∧ (∀ v txt, format_time tz (some ⟨some v, txt⟩) = epochToLocal tz v)
    ∧ format_time 0 (some ⟨some 1700000000, none⟩) = "2023-11-14 22:13:20" := by
  refine ⟨?_, rfl, fun txt => rfl, fun v txt => rfl, by decide⟩
  rw [get_directions, hlegs]
  rfl

/-- C7 witness: a concrete two-route response whose first route has two
legs is reshaped from the first route and first leg only, with a
formatted departure timestamp and an empty arrival timestamp. -/
theorem C7_witness :
    get_directions "A" "B" "driving" none none 0
      [⟨some "via X", [⟨⟨1200, "1.2 km"⟩, ⟨300, "5 mins"⟩, none,
          some ⟨some 1700000000, some "22:13"⟩⟩,
        ⟨⟨9999, "ignored"⟩, ⟨9999, "ignored"⟩, none, none⟩]⟩,
       ⟨some "via Y", []⟩] =
      .ok ⟨[⟨some "via X", [⟨⟨1200, "1.2 km"⟩, ⟨300, "5 mins"⟩, none,
          some ⟨some 1700000000, some "22:13"⟩⟩,
        ⟨⟨9999, "ignored"⟩, ⟨9999, "ignored"⟩, none, none⟩]⟩,
       ⟨some "via Y", []⟩],
        "via X", ⟨1200, "1.2 km"⟩, ⟨300, "5 mins"⟩, "",
        "2023-11-14 22:13:20"⟩ := by
  exact (C7_first_route_first_leg "A" "B" "driving" none none 0
    ⟨some "via X", [⟨⟨1200, "1.2 km"⟩, ⟨300, "5 mins"⟩, none,
        some ⟨some 1700000000, some "22:13"⟩⟩,
      ⟨⟨9999, "ignored"⟩, ⟨9999, "ignored"⟩, none, none⟩]⟩
    [⟨some "via Y", []⟩]
    ⟨⟨1200, "1.2 km"⟩, ⟨300, "5 mins"⟩, none, some ⟨some 1700000000, some "22:13"⟩⟩
    [⟨⟨9999, "ignored"⟩, ⟨9999, "ignored"⟩, none, none⟩] rfl).1

/- ===================== C9 ===================== -/

/-- C9: for a provider elevation response honouring the provider
contract (one item per requested point, echoing the request coordinates
in request order), the elevation operation succeeds with exactly one
ElevationSample per requested point, in the same order as the input
list, pairing each requested location with its item's elevation. -/
theorem C9_elevation_order (locations : List ElevPoint) (resp : List ElevItem)
    (hlen : resp.length = locations.length)
    (hloc : ∀ (i : ℕ) (h1 : i < resp.length) (h2 : i < locations.length),
        (resp.get ⟨i, h1⟩).location =
          ⟨(locations.get ⟨i, h2⟩).latitude, (locations.get ⟨i, h2⟩).longitude⟩) :
    ∃ samples : List ElevSample,
      get_elevation locations resp = .ok samples
      ∧ samples.length = locations.length
      ∧ ∀ (i : ℕ) (h1 : i < samples.length) (h2 : i < locations.length)
          (h3 : i < resp.length),
          samples.get ⟨i, h1⟩ =
            ⟨(resp.get ⟨i, h3⟩).elevation,
             ⟨(locations.get ⟨i, h2⟩).latitude, (locations.get ⟨i, h2⟩).longitude⟩⟩ := by
  refine ⟨_, rfl, ?_, ?_⟩
  · simpa using hlen
  intro i h1 h2 h3
  have hget : (resp.map (fun item =>
      (⟨item.elevation, ⟨item.location.lat, item.location.lng⟩⟩ : ElevSample))).get ⟨i, h1⟩
      = ⟨(resp.get ⟨i, h3⟩).elevation,
         ⟨(resp.get ⟨i, h3⟩).location.lat, (resp.get ⟨i, h3⟩).location.lng⟩⟩ := by
    simp [List.get_eq_getElem, List.getElem_map]
  rw [hget, hloc i h3 h2]

/-- C9 witness: a concrete two-point request with an order-preserving
provider response yields exactly two samples, pairing each requested
point with its item's elevation in request order. -/
theorem C9_witness :
    ∃ samples : List ElevSample,
      get_elevation [⟨10, 20⟩, ⟨30, 40⟩] [⟨100, ⟨10, 20⟩⟩, ⟨200, ⟨30, 40⟩⟩] = .ok samples
      ∧ samples.length = 2
      ∧ ∀ (i : ℕ) (h1 : i < samples.length) (h2 : i < 2) (h3 : i < 2),
          samples.get ⟨i, h1⟩ =
            ⟨(([⟨100, ⟨10, 20⟩⟩, ⟨200, ⟨30, 40⟩⟩] : List ElevItem).get ⟨i, h3⟩).elevation,
             ⟨(([⟨10, 20⟩, ⟨30, 40⟩] : List ElevPoint).get ⟨i, h2⟩).latitude,
              (([⟨10, 20⟩, ⟨30, 40⟩] : List ElevPoint).get ⟨i, h2⟩).longitude⟩⟩ := by
  exact C9_elevation_order [⟨10, 20⟩, ⟨30, 40⟩] [⟨100, ⟨10, 20⟩⟩, ⟨200, ⟨30, 40⟩⟩] rfl
    (by
      intro i h1 h2
      simp only [List.length_cons, List.length_nil] at h1
      interval_cases i <;> rfl)

/- ===================== C8 ===================== -/

/-- C8: every tool invoked while the shared adapter handle is still
uninitialized returns the not-initialized error for all other arguments
(so no adapter call or provider response is ever consulted). -/
theorem C8_not_initialized :
    (∀ pf gresp nresp center kw radius openNow minRating,
        search_nearby_tool none pf gresp nresp center kw radius openNow minRating =
          .error "Google Map Tools not initialized")
    ∧ (∀ placeId resp, get_place_details_tool none placeId resp =
        .error "Google Maps tools not initialized")
    ∧ (∀ address resp, maps_geocode_tool none address resp =
        .error "Google Maps tools not initialized")
    ∧ (∀ latitude longitude resp, maps_reverse_geocode_tool none latitude longitude resp =
        .error "Google Maps tools not initialized")
    ∧ (∀ origins destinations mode resp,
        maps_distance_matrix_tool none origins destinations mode resp =
          .error "Google Maps tools not initialized")
    ∧ (∀ origin destination mode dep arr tz resp,
        maps_directions_tool none origin destination mode dep arr tz resp =
          .error "Google Maps tools not initialized")
    ∧ (∀ locations resp, maps_elevation_tool none locations resp =
        .error "Google Maps tools not initialized") := by
  exact ⟨fun _ _ _ _ _ _ _ _ => rfl, fun _ _ => rfl, fun _ _ => rfl,
         fun _ _ _ => rfl, fun _ _ _ _ => rfl, fun _ _ _ _ _ _ _ => rfl,
         fun _ _ => rfl⟩

/- ===================== C10 ===================== -/

/-- C10: when the provider place-detail response has no "result" field,
the place-detail tool succeeds with the empty detail object: every field
projected from the provider response is none or an empty list, and only
the echoed request place_id is populated. -/
theorem C10_missing_result_field (placeId : String) :
    get_place_details_tool (some ()) placeId ⟨none⟩ =
      .ok ⟨none, placeId, none, none, none, none, none, [], none, none,
           none, none, none, [], [], []⟩ := by
  rfl

end MapsServer
